import Mathlib

/-!
Verification of the connection-management layer of
`sodanhyun/web-push-with-redis-kafka-fe`, i.e. the Zustand store
`src/store/useWebSocketStore.ts` (STOMP over SockJS with exponential
backoff) together with the credential read from
`src/store/useAuthStore.ts`.

The store is shallowly embedded as a state machine: the Zustand store
fields become a `StoreState` record, and the asynchronous environment
(in-flight STOMP handshakes whose success/error callbacks are armed, and
live `setTimeout` timers) becomes explicit lists inside a `World` record.
Events (caller invocations of `connect`/`disconnect`, handshake
success/failure callbacks firing, timers firing) are applied by a total
step function; a callback of a handshake that is not pending, or a timer
that was cancelled with `clearTimeout`, is a no-op, which matches the
JavaScript event-loop semantics.  All state mutation in the source happens
synchronously inside a single callback, so each event is one atomic step.
-/

namespace WSStore

/-- The `ReadyState` enum from `useWebSocketStore.ts` lines 6-12
(`CONNECTING = 0, OPEN = 1, CLOSING = 2, CLOSED = 3, UNINSTANTIATED = 4`);
the numeric values are never used by the store logic, only the tags. -/
inductive ReadyState where
  | CONNECTING
  | OPEN
  | CLOSING
  | CLOSED
  | UNINSTANTIATED
deriving DecidableEq

/-- The function `getStatusString` from `useWebSocketStore.ts` lines 29-37: the fixed
total mapping from `ReadyState` to the human-readable status string the
source actually uses (Korean UI strings). -/
def getStatusString : ReadyState → String
  | ReadyState.CONNECTING => "연결 중..."
  | ReadyState.OPEN => "연결됨"
  | ReadyState.CLOSING => "연결 종료 중..."
  | ReadyState.CLOSED => "연결 끊김"
  | ReadyState.UNINSTANTIATED => "연결 안 됨"

/-- Handshake headers built at each `connect` invocation from the access
token read from `useAuthStore.getState().accessToken`
(`useWebSocketStore.ts` lines 92-93):
`accessToken ? { Authorization: Bearer ... } : \x7b\x7d`.
The conditional is a JavaScript truthiness test on a `string | null`
value, so it takes the empty branch both for `null` AND for the empty
string (the one falsy non-null string): only a non-null, non-empty token
produces an `Authorization` header. -/
def authHeaders : Option String → List (String × String)
  | some token => if token = "" then [] else [("Authorization", "Bearer " ++ token)]
  | none => []

/-- The backoff delay computed in the error callback
(`useWebSocketStore.ts` line 104-105):
`nextAttempts = reconnectAttempts + 1;
 delay = Math.min(1000 * Math.pow(2, nextAttempts), 30000)`,
expressed as a function of the pre-failure `reconnectAttempts`. -/
def reconnectDelay (attempts : Nat) : Nat :=
  min (1000 * 2 ^ (attempts + 1)) 30000

/-- A `Stomp.Client` instance as far as the store observes it: an identity
(object identity of `Stomp.over(socket)`) and its `connected` flag. -/
structure StompClient where
  id : Nat
  connected : Bool
deriving DecidableEq

/-- An in-flight handshake: a `newStompClient.connect(headers, onSuccess,
onError)` call (`useWebSocketStore.ts` lines 95-135) whose callbacks have
not fired yet.  The callbacks close over the store (`set`/`get`) and over
`url`, so the record keeps the client identity, the url and the headers
passed to the handshake. -/
structure Handshake where
  clientId : Nat
  url : String
  headers : List (String × String)
deriving DecidableEq

/-- A live `setTimeout` timer created at `useWebSocketStore.ts` line 109:
`setTimeout(() => get().connect(url), delay)`.  It stays live until it
fires or until `clearTimeout` is called on its id. -/
structure Timer where
  id : Nat
  url : String
  delay : Nat
deriving DecidableEq

/-- The Zustand store fields of `useWebSocketStore.ts` lines 14-27
(the data part of `WebSocketState`). -/
structure StoreState where
  stompClient : Option StompClient
  readyState : ReadyState
  connectionStatus : String
  reconnectAttempts : Nat
  maxReconnectAttempts : Nat
  reconnectTimeoutId : Option Nat
deriving DecidableEq

/-- Store plus asynchronous environment: the pending handshakes whose
callbacks are still armed, the live timers, and fresh-id counters for
client and timer identities (`setTimeout` ids are never reused). -/
structure World where
  store : StoreState
  pending : List Handshake
  timers : List Timer
  nextClientId : Nat
  nextTimerId : Nat
deriving DecidableEq

/-- Initial store (`useWebSocketStore.ts` lines 40-45). -/
def initStore : StoreState :=
  { stompClient := none
    readyState := ReadyState.UNINSTANTIATED
    connectionStatus := getStatusString ReadyState.UNINSTANTIATED
    reconnectAttempts := 0
    maxReconnectAttempts := 5
    reconnectTimeoutId := none }

/-- Initial world: initial store, nothing in flight. -/
def initWorld : World :=
  { store := initStore
    pending := []
    timers := []
    nextClientId := 0
    nextTimerId := 0 }

/-- Lines 51-54 and 145-148 of `useWebSocketStore.ts`: `if
(reconnectTimeoutId) \x7b clearTimeout(reconnectTimeoutId);
set(\x7b reconnectTimeoutId: null \x7d) \x7d`.  `clearTimeout` removes the
timer from the live set, so it can never fire afterwards. -/
def clearStoredTimer (w : World) : World :=
  match w.store.reconnectTimeoutId with
  | none => w
  | some tid =>
    { w with
        timers := w.timers.filter (fun t => t.id ≠ tid)
        store := { w.store with reconnectTimeoutId := none } }

/-- Lines 70-81 of `useWebSocketStore.ts`: if a `stompClient` is stored, both
branches call `stompClient.disconnect(cb)`; stompjs 2.x runs `cb`
synchronously and nulls the socket `onclose` handler, so the armed callbacks of the old
client are disarmed (its pending handshake, if any, is removed)
and `cb` sets `stompClient: null, readyState: UNINSTANTIATED`. -/
def cleanupClient (w : World) : World :=
  match w.store.stompClient with
  | none => w
  | some c =>
    { w with
        pending := w.pending.filter (fun h => h.clientId ≠ c.id)
        store :=
          { w.store with
              stompClient := none
              readyState := ReadyState.UNINSTANTIATED
              connectionStatus := getStatusString ReadyState.UNINSTANTIATED } }

/-- Lines 83-138 of `useWebSocketStore.ts`: set `CONNECTING`, create the
SockJS socket and STOMP client, read the access token fresh and build the
headers, start the handshake (arming its callbacks), store the new client.
`token` is the value of `useAuthStore.getState().accessToken` at this
invocation. -/
def startHandshake (w : World) (url : String) (token : Option String) : World :=
  let w1 :=
    { w with
        store :=
          { w.store with
              readyState := ReadyState.CONNECTING
              connectionStatus := getStatusString ReadyState.CONNECTING } }
  let cid := w1.nextClientId
  { w1 with
      pending := { clientId := cid, url := url, headers := authHeaders token } :: w1.pending
      nextClientId := cid + 1
      store := { w1.store with stompClient := some { id := cid, connected := false } } }

/-- The `connect` action from `useWebSocketStore.ts` lines 47-139: cancel the stored
reconnect timer, return if `OPEN` or `CONNECTING`, force `CLOSED` and
return if `reconnectAttempts >= maxReconnectAttempts`, otherwise clean up
any stored client and start a new handshake. -/
def connect (w0 : World) (url : String) (token : Option String) : World :=
  let w := clearStoredTimer w0
  if w.store.readyState = ReadyState.OPEN then w
  else if w.store.readyState = ReadyState.CONNECTING then w
  else if w.store.maxReconnectAttempts ≤ w.store.reconnectAttempts then
    { w with
        store :=
          { w.store with
              readyState := ReadyState.CLOSED
              connectionStatus := getStatusString ReadyState.CLOSED } }
  else
    startHandshake (cleanupClient w) url token

/-- The `disconnect` action from `useWebSocketStore.ts` lines 141-159: cancel the
stored reconnect timer; if the stored client is connected, disconnect it
(stompjs runs the completion callback synchronously and disarms the
callbacks of that client); in both cases set `CLOSED`, drop the client and reset
`reconnectAttempts` to 0.  Note that a stored client that is NOT connected
(a handshake still in flight) is merely dropped from the store: its armed
callbacks stay pending. -/
def disconnect (w0 : World) : World :=
  let w := clearStoredTimer w0
  match w.store.stompClient with
  | some c =>
    if c.connected then
      { w with
          pending := w.pending.filter (fun h => h.clientId ≠ c.id)
          store :=
            { w.store with
                readyState := ReadyState.CLOSED
                connectionStatus := getStatusString ReadyState.CLOSED
                stompClient := none
                reconnectAttempts := 0 } }
    else
      { w with
          store :=
            { w.store with
                readyState := ReadyState.CLOSED
                connectionStatus := getStatusString ReadyState.CLOSED
                stompClient := none
                reconnectAttempts := 0 } }
  | none =>
    { w with
        store :=
          { w.store with
              readyState := ReadyState.CLOSED
              connectionStatus := getStatusString ReadyState.CLOSED
              stompClient := none
              reconnectAttempts := 0 } }

/-- Success callback of the handshake with client id `cid`
(`useWebSocketStore.ts` lines 97-100): if that handshake is still pending
it resolves, setting `OPEN`, storing the (now connected) client and
resetting `reconnectAttempts` to 0; a resolved or disarmed handshake is a
no-op. -/
def handshakeSuccess (w : World) (cid : Nat) : World :=
  match w.pending.find? (fun h => h.clientId = cid) with
  | none => w
  | some _ =>
    { w with
        pending := w.pending.filter (fun h => h.clientId ≠ cid)
        store :=
          { w.store with
              readyState := ReadyState.OPEN
              connectionStatus := getStatusString ReadyState.OPEN
              stompClient := some { id := cid, connected := true }
              reconnectAttempts := 0 } }

/-- Error callback of the handshake with client id `cid`
(`useWebSocketStore.ts` lines 101-134): if that handshake is still
pending it resolves; the callback reads the CURRENT store state, computes
`nextAttempts = reconnectAttempts + 1` and the backoff delay, and either
schedules a reconnect timer (when `nextAttempts < maxReconnectAttempts`)
or gives up; in both branches it sets `CLOSED`, drops the client and
stores `reconnectAttempts = nextAttempts`.  The previously stored timer
id, if any, is overwritten WITHOUT `clearTimeout`. -/
def handshakeFailure (w : World) (cid : Nat) : World :=
  match w.pending.find? (fun h => h.clientId = cid) with
  | none => w
  | some h =>
    let w1 := { w with pending := w.pending.filter (fun x => x.clientId ≠ cid) }
    let s := w1.store
    let nextAttempts := s.reconnectAttempts + 1
    let delay := reconnectDelay s.reconnectAttempts
    if nextAttempts < s.maxReconnectAttempts then
      let tid := w1.nextTimerId
      { w1 with
          timers := { id := tid, url := h.url, delay := delay } :: w1.timers
          nextTimerId := tid + 1
          store :=
            { s with
                readyState := ReadyState.CLOSED
                connectionStatus := getStatusString ReadyState.CLOSED
                stompClient := none
                reconnectAttempts := nextAttempts
                reconnectTimeoutId := some tid } }
    else
      { w1 with
          store :=
            { s with
                readyState := ReadyState.CLOSED
                connectionStatus := getStatusString ReadyState.CLOSED
                stompClient := none
                reconnectAttempts := nextAttempts
                reconnectTimeoutId := none } }

/-- A live timer with id `tid` fires (`useWebSocketStore.ts` line 109):
the timer leaves the live set and its callback runs
`get().connect(url)`, which reads the access token fresh (`token` is the
value the provider holds at fire time).  A cancelled timer never fires. -/
def timerFire (w : World) (tid : Nat) (token : Option String) : World :=
  match w.timers.find? (fun t => t.id = tid) with
  | none => w
  | some t =>
    connect { w with timers := w.timers.filter (fun x => x.id ≠ tid) } t.url token

/-- A STOMP frame handed to the transport by `stompClient.send`
(`useWebSocketStore.ts` line 164). -/
structure SentFrame where
  destination : String
  headers : List (String × String)
  body : String
deriving DecidableEq

/-- The `sendMessage` action from `useWebSocketStore.ts` lines 161-169: performs the
transport call `stompClient.send(destination, headers, body)` only when
`stompClient && stompClient.connected && readyState === OPEN`; otherwise
it only logs a warning.  The result is `some frame` exactly when a
transport call happens; the function is total, so no exception is ever
thrown. -/
def sendMessage (w : World) (destination : String) (body : String)
    (headers : List (String × String)) : Option SentFrame :=
  match w.store.stompClient with
  | some c =>
    if c.connected ∧ w.store.readyState = ReadyState.OPEN then
      some { destination := destination, headers := headers, body := body }
    else
      none
  | none => none

/-- The handle returned by `stompClient.subscribe`
(`useWebSocketStore.ts` line 174). -/
structure SubscriptionHandle where
  clientId : Nat
  destination : String
  headers : List (String × String)
deriving DecidableEq

/-- The `subscribe` action from `useWebSocketStore.ts` lines 171-179: performs the
transport call `stompClient.subscribe(destination, callback, headers)`
(returning its handle) only when `stompClient && stompClient.connected &&
readyState === OPEN`; otherwise it returns `undefined` (`none`).  The
message callback is passed through to the transport opaquely and plays no
role in the guard, so it is omitted from the embedding. -/
def subscribe (w : World) (destination : String)
    (headers : List (String × String)) : Option SubscriptionHandle :=
  match w.store.stompClient with
  | some c =>
    if c.connected ∧ w.store.readyState = ReadyState.OPEN then
      some { clientId := c.id, destination := destination, headers := headers }
    else
      none
  | none => none

/-- The `resetReconnectAttempts` action from `useWebSocketStore.ts` lines 188-190. -/
def resetReconnectAttempts (w : World) : World :=
  { w with store := { w.store with reconnectAttempts := 0 } }

/-- The events that drive the store, as listed by the spec: caller
invocations of `connect(url)` and `disconnect()`, handshake outcome
callbacks, and timer firings.  `connect` and `timerFire` carry the value
of the external credential provider at the moment they run. -/
inductive Event where
  | connect (url : String) (token : Option String)
  | disconnect
  | handshakeSuccess (cid : Nat)
  | handshakeFailure (cid : Nat)
  | timerFire (tid : Nat) (token : Option String)
deriving DecidableEq

/-- One atomic event-loop turn. -/
def step (w : World) : Event → World
  | Event.connect url token => connect w url token
  | Event.disconnect => disconnect w
  | Event.handshakeSuccess cid => handshakeSuccess w cid
  | Event.handshakeFailure cid => handshakeFailure w cid
  | Event.timerFire tid token => timerFire w tid token

/-- Run a sequence of events. -/
def run (w : World) (es : List Event) : World :=
  es.foldl step w

/-- Worlds reachable from the initial world. -/
inductive Reachable : World → Prop where
  | init : Reachable initWorld
  | step : ∀ {w : World}, Reachable w → ∀ e : Event, Reachable (step w e)

/-- Scenario B of the spec: one `connect` and then five consecutive
handshake failures (each reconnect timer fires and launches the next
attempt), with no intervening success or `disconnect()`. -/
def failTrace5 : List Event :=
  [Event.connect "wss://host/ws" none,
   Event.handshakeFailure 0,
   Event.timerFire 0 none,
   Event.handshakeFailure 1,
   Event.timerFire 1 none,
   Event.handshakeFailure 2,
   Event.timerFire 2 none,
   Event.handshakeFailure 3,
   Event.timerFire 3 none,
   Event.handshakeFailure 4]

/-- A trace that calls `disconnect()` while a handshake is in flight,
five times over, leaving six handshakes pending with
`reconnectAttempts = 0`, and then lets all six error callbacks fire. -/
def staleFailureTrace : List Event :=
  [Event.connect "u" none, Event.disconnect,
   Event.connect "u" none, Event.disconnect,
   Event.connect "u" none, Event.disconnect,
   Event.connect "u" none, Event.disconnect,
   Event.connect "u" none, Event.disconnect,
   Event.connect "u" none,
   Event.handshakeFailure 0, Event.handshakeFailure 1,
   Event.handshakeFailure 2, Event.handshakeFailure 3,
   Event.handshakeFailure 4, Event.handshakeFailure 5]

/-- An `OPEN` store whose stored client is null (transport gone). -/
def openNullClientWorld : World :=
  { store :=
      { stompClient := none
        readyState := ReadyState.OPEN
        connectionStatus := getStatusString ReadyState.OPEN
        reconnectAttempts := 0
        maxReconnectAttempts := 5
        reconnectTimeoutId := none }
    pending := []
    timers := []
    nextClientId := 0
    nextTimerId := 0 }

/-- An `OPEN` store whose stored client reports `connected = false`. -/
def openStaleClientWorld : World :=
  { store :=
      { stompClient := some { id := 0, connected := false }
        readyState := ReadyState.OPEN
        connectionStatus := getStatusString ReadyState.OPEN
        reconnectAttempts := 0
        maxReconnectAttempts := 5
        reconnectTimeoutId := none }
    pending := []
    timers := []
    nextClientId := 1
    nextTimerId := 0 }

/-- Scenario A of the spec: one `connect` whose handshake succeeds. -/
def openTrace : List Event :=
  [Event.connect "wss://host/ws" none, Event.handshakeSuccess 0]

/-- One `connect` whose handshake fails once, leaving a pending reconnect
timer (id 0) stored in `reconnectTimeoutId`. -/
def oneFailureTrace : List Event :=
  [Event.connect "wss://host/ws" none, Event.handshakeFailure 0]

/-- Caller interventions: the two operations a caller can invoke that
start or stop connection activity. -/
def isCallerEvent : Event → Bool
  | Event.connect _ _ => true
  | Event.disconnect => true
  | _ => false

/-- The predicate `goodFrom w es` holds when the trace `es`, run from `w`, never invokes
`disconnect()` while the state is `CONNECTING` (i.e. never abandons an
in-flight handshake). -/
def goodFrom : World → List Event → Bool
  | _, [] => true
  | w, e :: es =>
    !(e = Event.disconnect ∧ w.store.readyState = ReadyState.CONNECTING) &&
      goodFrom (step w e) es

/-- The state invariant maintained by every event: the status string is
the image of the state under `getStatusString`; `maxReconnectAttempts` is
the constant 5; `reconnectAttempts` is 0 in `OPEN` and below the ceiling
in `CONNECTING`; and all live or stored timer ids are below the fresh-id
counter. -/
def StoreInv (w : World) : Prop :=
  w.store.connectionStatus = getStatusString w.store.readyState ∧
  w.store.maxReconnectAttempts = 5 ∧
  (w.store.readyState = ReadyState.OPEN → w.store.reconnectAttempts = 0) ∧
  (w.store.readyState = ReadyState.CONNECTING →
     w.store.reconnectAttempts < w.store.maxReconnectAttempts) ∧
  (∀ t ∈ w.timers, t.id < w.nextTimerId) ∧
  (∀ tid, w.store.reconnectTimeoutId = some tid → tid < w.nextTimerId)

/-- A timer id that has been consumed and can never fire again: it is
below the fresh-id counter (so it is never handed out again) and no live
timer carries it. -/
def TimerDead (w : World) (tid : Nat) : Prop :=
  tid < w.nextTimerId ∧ ∀ t ∈ w.timers, t.id ≠ tid

/-- The invariant that bounds `reconnectAttempts` on traces that never
abandon an in-flight handshake: at most one handshake is pending, a
pending handshake means the state is `CONNECTING`, and `CONNECTING`
states sit strictly below the attempt ceiling. -/
def BoundedInv (w : World) : Prop :=
  w.store.maxReconnectAttempts = 5 ∧
  w.store.reconnectAttempts ≤ 5 ∧
  w.pending.length ≤ 1 ∧
  (w.pending ≠ [] → w.store.readyState = ReadyState.CONNECTING) ∧
  (w.store.readyState = ReadyState.CONNECTING → w.store.reconnectAttempts < 5)

/-! ### Basic facts about the helper functions -/

theorem clear_readyState (w : World) :
    (clearStoredTimer w).store.readyState = w.store.readyState := by
  unfold clearStoredTimer; split <;> rfl

theorem clear_connectionStatus (w : World) :
    (clearStoredTimer w).store.connectionStatus = w.store.connectionStatus := by
  unfold clearStoredTimer; split <;> rfl

theorem clear_reconnectAttempts (w : World) :
    (clearStoredTimer w).store.reconnectAttempts = w.store.reconnectAttempts := by
  unfold clearStoredTimer; split <;> rfl

theorem clear_maxReconnectAttempts (w : World) :
    (clearStoredTimer w).store.maxReconnectAttempts = w.store.maxReconnectAttempts := by
  unfold clearStoredTimer; split <;> rfl

theorem clear_stompClient (w : World) :
    (clearStoredTimer w).store.stompClient = w.store.stompClient := by
  unfold clearStoredTimer; split <;> rfl

theorem clear_pending (w : World) :
    (clearStoredTimer w).pending = w.pending := by
  unfold clearStoredTimer; split <;> rfl

theorem clear_nextClientId (w : World) :
    (clearStoredTimer w).nextClientId = w.nextClientId := by
  unfold clearStoredTimer; split <;> rfl

theorem clear_nextTimerId (w : World) :
    (clearStoredTimer w).nextTimerId = w.nextTimerId := by
  unfold clearStoredTimer; split <;> rfl

theorem clear_reconnectTimeoutId (w : World) :
    (clearStoredTimer w).store.reconnectTimeoutId = none := by
  unfold clearStoredTimer; split
  next h => exact h
  next tid h => rfl

theorem clear_timers_mem {w : World} {t : Timer}
    (h : t ∈ (clearStoredTimer w).timers) : t ∈ w.timers := by
  unfold clearStoredTimer at h; split at h
  · exact h
  · exact List.mem_of_mem_filter h

theorem clear_timers_ne {w : World} {tid : Nat}
    (h : w.store.reconnectTimeoutId = some tid) :
    ∀ t ∈ (clearStoredTimer w).timers, t.id ≠ tid := by
  intro t ht
  unfold clearStoredTimer at ht
  rw [h] at ht
  simp only [List.mem_filter, decide_eq_true_eq] at ht
  exact ht.2

theorem cleanup_reconnectAttempts (w : World) :
    (cleanupClient w).store.reconnectAttempts = w.store.reconnectAttempts := by
  unfold cleanupClient; split <;> rfl

theorem cleanup_maxReconnectAttempts (w : World) :
    (cleanupClient w).store.maxReconnectAttempts = w.store.maxReconnectAttempts := by
  unfold cleanupClient; split <;> rfl

theorem cleanup_reconnectTimeoutId (w : World) :
    (cleanupClient w).store.reconnectTimeoutId = w.store.reconnectTimeoutId := by
  unfold cleanupClient; split <;> rfl

theorem cleanup_timers (w : World) :
    (cleanupClient w).timers = w.timers := by
  unfold cleanupClient; split <;> rfl

theorem cleanup_nextClientId (w : World) :
    (cleanupClient w).nextClientId = w.nextClientId := by
  unfold cleanupClient; split <;> rfl

theorem cleanup_nextTimerId (w : World) :
    (cleanupClient w).nextTimerId = w.nextTimerId := by
  unfold cleanupClient; split <;> rfl

theorem cleanup_pending_length (w : World) :
    (cleanupClient w).pending.length ≤ w.pending.length := by
  unfold cleanupClient; split
  · exact Nat.le_refl _
  · exact List.length_filter_le _ _

theorem run_nil (w : World) : run w [] = w := rfl

theorem run_cons (w : World) (e : Event) (es : List Event) :
    run w (e :: es) = run (step w e) es := rfl

theorem reachable_run {w : World} (h : Reachable w) (es : List Event) :
    Reachable (run w es) := by
  induction es generalizing w with
  | nil => exact h
  | cons e es ih => exact ih (Reachable.step h e)

/-! ### Preservation of `StoreInv` -/

theorem storeInv_init : StoreInv initWorld := by
  refine ⟨rfl, rfl, ?_, ?_, ?_, ?_⟩
  · intro h; exact ReadyState.noConfusion h
  · intro h; exact ReadyState.noConfusion h
  · intro t ht; exact absurd ht (List.not_mem_nil t)
  · intro tid htid; exact Option.noConfusion htid

theorem storeInv_clear {w : World} (h : StoreInv w) : StoreInv (clearStoredTimer w) := by
  obtain ⟨h1, h2, h3, h4, h5, h6⟩ := h
  refine ⟨?_, ?_, ?_, ?_, ?_, ?_⟩
  · rw [clear_connectionStatus, clear_readyState]; exact h1
  · rw [clear_maxReconnectAttempts]; exact h2
  · rw [clear_readyState, clear_reconnectAttempts]; exact h3
  · rw [clear_readyState, clear_reconnectAttempts, clear_maxReconnectAttempts]; exact h4
  · intro t ht; rw [clear_nextTimerId]; exact h5 t (clear_timers_mem ht)
  · intro tid htid; rw [clear_reconnectTimeoutId] at htid; exact Option.noConfusion htid

theorem storeInv_cleanup {w : World} (h : StoreInv w) : StoreInv (cleanupClient w) := by
  obtain ⟨h1, h2, h3, h4, h5, h6⟩ := h
  unfold cleanupClient; split
  · exact ⟨h1, h2, h3, h4, h5, h6⟩
  · refine ⟨rfl, h2, ?_, ?_, h5, h6⟩
    · intro hOpen; exact ReadyState.noConfusion hOpen
    · intro hConn; exact ReadyState.noConfusion hConn

theorem storeInv_startHandshake {w : World} {url : String} {token : Option String}
    (h : StoreInv w)
    (hlt : w.store.reconnectAttempts < w.store.maxReconnectAttempts) :
    StoreInv (startHandshake w url token) := by
  obtain ⟨h1, h2, h3, h4, h5, h6⟩ := h
  refine ⟨rfl, h2, ?_, ?_, h5, h6⟩
  · intro hOpen; exact ReadyState.noConfusion hOpen
  · intro _; exact hlt

theorem storeInv_connect {w : World} {url : String} {token : Option String}
    (h : StoreInv w) : StoreInv (connect w url token) := by
  have hc := storeInv_clear h
  simp only [connect]
  split_ifs with h1 h2 h3
  · exact hc
  · exact hc
  · obtain ⟨hc1, hc2, hc3, hc4, hc5, hc6⟩ := hc
    refine ⟨rfl, hc2, ?_, ?_, hc5, ?_⟩
    · intro hOpen; exact ReadyState.noConfusion hOpen
    · intro hConn; exact ReadyState.noConfusion hConn
    · intro tid htid
      rw [show ({ clearStoredTimer w with
            store := { (clearStoredTimer w).store with
                readyState := ReadyState.CLOSED
                connectionStatus := getStatusString ReadyState.CLOSED } } :
          World).store.reconnectTimeoutId =
          (clearStoredTimer w).store.reconnectTimeoutId from rfl,
        clear_reconnectTimeoutId] at htid
      exact Option.noConfusion htid
  · refine storeInv_startHandshake (storeInv_cleanup hc) ?_
    rw [cleanup_reconnectAttempts, cleanup_maxReconnectAttempts]
    exact Nat.lt_of_not_le h3

theorem storeInv_disconnect {w : World} (h : StoreInv w) : StoreInv (disconnect w) := by
  have hc := storeInv_clear h
  obtain ⟨hc1, hc2, hc3, hc4, hc5, hc6⟩ := hc
  have hnone := clear_reconnectTimeoutId w
  simp only [disconnect]
  split
  · split_ifs
    · refine ⟨rfl, hc2, ?_, ?_, hc5, ?_⟩
      · intro hOpen; exact ReadyState.noConfusion hOpen
      · intro hConn; exact ReadyState.noConfusion hConn
      · intro tid htid
        exact Option.noConfusion (hnone.symm.trans htid)
    · refine ⟨rfl, hc2, ?_, ?_, hc5, ?_⟩
      · intro hOpen; exact ReadyState.noConfusion hOpen
      · intro hConn; exact ReadyState.noConfusion hConn
      · intro tid htid
        exact Option.noConfusion (hnone.symm.trans htid)
  · refine ⟨rfl, hc2, ?_, ?_, hc5, ?_⟩
    · intro hOpen; exact ReadyState.noConfusion hOpen
    · intro hConn; exact ReadyState.noConfusion hConn
    · intro tid htid
      exact Option.noConfusion (hnone.symm.trans htid)

theorem storeInv_handshakeSuccess {w : World} {cid : Nat} (h : StoreInv w) :
    StoreInv (handshakeSuccess w cid) := by
  obtain ⟨h1, h2, h3, h4, h5, h6⟩ := h
  unfold handshakeSuccess; split
  · exact ⟨h1, h2, h3, h4, h5, h6⟩
  · refine ⟨rfl, h2, fun _ => rfl, ?_, h5, h6⟩
    · intro hConn; exact ReadyState.noConfusion hConn

theorem storeInv_handshakeFailure {w : World} {cid : Nat} (h : StoreInv w) :
    StoreInv (handshakeFailure w cid) := by
  obtain ⟨h1, h2, h3, h4, h5, h6⟩ := h
  unfold handshakeFailure; split
  · exact ⟨h1, h2, h3, h4, h5, h6⟩
  · dsimp only
    split_ifs
    · refine ⟨rfl, h2, ?_, ?_, ?_, ?_⟩
      · intro hOpen; exact ReadyState.noConfusion hOpen
      · intro hConn; exact ReadyState.noConfusion hConn
      · intro t ht
        rcases List.mem_cons.mp ht with h' | h'
        · rw [h']; exact Nat.lt_succ_self _
        · exact Nat.lt_succ_of_lt (h5 t h')
      · intro tid htid
        rw [Option.some.injEq] at htid
        rw [← htid]
        exact Nat.lt_succ_self _
    · refine ⟨rfl, h2, ?_, ?_, h5, ?_⟩
      · intro hOpen; exact ReadyState.noConfusion hOpen
      · intro hConn; exact ReadyState.noConfusion hConn
      · intro tid htid; exact Option.noConfusion htid

theorem storeInv_timerFire {w : World} {tid : Nat} {token : Option String}
    (h : StoreInv w) : StoreInv (timerFire w tid token) := by
  obtain ⟨h1, h2, h3, h4, h5, h6⟩ := h
  unfold timerFire; split
  · exact ⟨h1, h2, h3, h4, h5, h6⟩
  · refine storeInv_connect ⟨h1, h2, h3, h4, ?_, h6⟩
    intro t ht
    exact h5 t (List.mem_of_mem_filter ht)

theorem storeInv_step {w : World} (h : StoreInv w) (e : Event) : StoreInv (step w e) := by
  cases e with
  | connect url token => exact storeInv_connect h
  | disconnect => exact storeInv_disconnect h
  | handshakeSuccess cid => exact storeInv_handshakeSuccess h
  | handshakeFailure cid => exact storeInv_handshakeFailure h
  | timerFire tid token => exact storeInv_timerFire h

theorem reachable_storeInv {w : World} (h : Reachable w) : StoreInv w := by
  induction h with
  | init => exact storeInv_init
  | step _ e ih => exact storeInv_step ih e

/-! ### A cancelled timer id stays dead forever -/

theorem sh_timers (w : World) (url : String) (token : Option String) :
    (startHandshake w url token).timers = w.timers := rfl

theorem sh_nextTimerId (w : World) (url : String) (token : Option String) :
    (startHandshake w url token).nextTimerId = w.nextTimerId := rfl

theorem sh_pending (w : World) (url : String) (token : Option String) :
    (startHandshake w url token).pending =
      { clientId := w.nextClientId, url := url, headers := authHeaders token } :: w.pending := rfl

theorem sh_readyState (w : World) (url : String) (token : Option String) :
    (startHandshake w url token).store.readyState = ReadyState.CONNECTING := rfl

theorem sh_reconnectAttempts (w : World) (url : String) (token : Option String) :
    (startHandshake w url token).store.reconnectAttempts = w.store.reconnectAttempts := rfl

theorem sh_maxReconnectAttempts (w : World) (url : String) (token : Option String) :
    (startHandshake w url token).store.maxReconnectAttempts = w.store.maxReconnectAttempts := rfl

theorem timerDead_clear {w : World} {tid : Nat} (h : TimerDead w tid) :
    TimerDead (clearStoredTimer w) tid := by
  refine ⟨?_, ?_⟩
  · rw [clear_nextTimerId]; exact h.1
  · intro t ht; exact h.2 t (clear_timers_mem ht)

theorem timerDead_connect {w : World} {tid : Nat} {url : String} {token : Option String}
    (h : TimerDead w tid) : TimerDead (connect w url token) tid := by
  have hc := timerDead_clear h
  simp only [connect]
  split_ifs with h1 h2 h3
  · exact hc
  · exact hc
  · exact hc
  · refine ⟨?_, ?_⟩
    · rw [sh_nextTimerId, cleanup_nextTimerId]; exact hc.1
    · intro t ht; rw [sh_timers, cleanup_timers] at ht; exact hc.2 t ht

theorem timerDead_disconnect {w : World} {tid : Nat} (h : TimerDead w tid) :
    TimerDead (disconnect w) tid := by
  have hc := timerDead_clear h
  simp only [disconnect]
  split
  · split_ifs
    · exact hc
    · exact hc
  · exact hc

theorem timerDead_handshakeSuccess {w : World} {tid cid : Nat} (h : TimerDead w tid) :
    TimerDead (handshakeSuccess w cid) tid := by
  unfold handshakeSuccess; split
  · exact h
  · exact h

theorem timerDead_handshakeFailure {w : World} {tid cid : Nat} (h : TimerDead w tid) :
    TimerDead (handshakeFailure w cid) tid := by
  unfold handshakeFailure; split
  · exact h
  · dsimp only
    split_ifs
    · refine ⟨Nat.lt_succ_of_lt h.1, ?_⟩
      intro t ht
      rcases List.mem_cons.mp ht with h' | h'
      · rw [h']; exact Ne.symm (Nat.ne_of_lt h.1)
      · exact h.2 t h'
    · exact h

theorem timerDead_timerFire {w : World} {tid tid' : Nat} {token : Option String}
    (h : TimerDead w tid) : TimerDead (timerFire w tid' token) tid := by
  unfold timerFire; split
  · exact h
  · refine timerDead_connect ⟨h.1, ?_⟩
    intro t ht
    exact h.2 t (List.mem_of_mem_filter ht)

theorem timerDead_step {w : World} {tid : Nat} (h : TimerDead w tid) (e : Event) :
    TimerDead (step w e) tid := by
  cases e with
  | connect url token => exact timerDead_connect h
  | disconnect => exact timerDead_disconnect h
  | handshakeSuccess cid => exact timerDead_handshakeSuccess h
  | handshakeFailure cid => exact timerDead_handshakeFailure h
  | timerFire tid' token => exact timerDead_timerFire h

theorem timerDead_run {w : World} {tid : Nat} (h : TimerDead w tid) (es : List Event) :
    TimerDead (run w es) tid := by
  induction es generalizing w with
  | nil => exact h
  | cons e es ih => exact ih (timerDead_step h e)

/-! ### The attempt bound on traces that never abandon a handshake -/

theorem length_le_one_eq_singleton {α : Type} {l : List α} (hlen : l.length ≤ 1)
    {a : α} (ha : a ∈ l) : l = [a] := by
  cases l with
  | nil => cases ha
  | cons x xs =>
    cases xs with
    | nil =>
      have : a = x := List.mem_singleton.mp ha
      rw [this]
    | cons y ys => simp at hlen

theorem cleanup_pending_nil {w : World} (h : w.pending = []) :
    (cleanupClient w).pending = [] := by
  unfold cleanupClient; split
  · exact h
  · rw [h]; rfl

theorem boundedInv_clear {w : World} (h : BoundedInv w) : BoundedInv (clearStoredTimer w) := by
  obtain ⟨h1, h2, h3, h4, h5⟩ := h
  refine ⟨?_, ?_, ?_, ?_, ?_⟩
  · rw [clear_maxReconnectAttempts]; exact h1
  · rw [clear_reconnectAttempts]; exact h2
  · rw [clear_pending]; exact h3
  · rw [clear_pending, clear_readyState]; exact h4
  · rw [clear_readyState, clear_reconnectAttempts]; exact h5

theorem boundedInv_connect {w : World} {url : String} {token : Option String}
    (h : BoundedInv w) : BoundedInv (connect w url token) := by
  have hb := boundedInv_clear h
  obtain ⟨hb1, hb2, hb3, hb4, hb5⟩ := hb
  simp only [connect]
  split_ifs with h1 h2 h3
  · exact ⟨hb1, hb2, hb3, hb4, hb5⟩
  · exact ⟨hb1, hb2, hb3, hb4, hb5⟩
  · refine ⟨hb1, hb2, hb3, ?_, ?_⟩
    · intro hp; exact absurd (hb4 hp) h2
    · intro hConn; exact ReadyState.noConfusion hConn
  · have hpnil : (clearStoredTimer w).pending = [] := by
      by_contra hne
      exact h2 (hb4 hne)
    refine ⟨?_, ?_, ?_, ?_, ?_⟩
    · rw [sh_maxReconnectAttempts, cleanup_maxReconnectAttempts]; exact hb1
    · rw [sh_reconnectAttempts, cleanup_reconnectAttempts]; exact hb2
    · rw [sh_pending, cleanup_pending_nil hpnil]; exact Nat.le_refl 1
    · intro _; rw [sh_readyState]
    · intro _
      rw [sh_reconnectAttempts, cleanup_reconnectAttempts]
      have := Nat.lt_of_not_le h3
      rw [hb1] at this
      exact this

theorem boundedInv_disconnect {w : World}
    (h : BoundedInv w) (hs : w.store.readyState ≠ ReadyState.CONNECTING) :
    BoundedInv (disconnect w) := by
  have hb := boundedInv_clear h
  obtain ⟨hb1, hb2, hb3, hb4, hb5⟩ := hb
  have hpnil : (clearStoredTimer w).pending = [] := by
    by_contra hne
    rw [clear_readyState] at hb4
    exact hs (hb4 hne)
  simp only [disconnect]
  split
  · split_ifs
    · refine ⟨hb1, Nat.zero_le 5, ?_, ?_, ?_⟩
      · rw [hpnil]; exact Nat.zero_le 1
      · intro hp; rw [hpnil] at hp; simp at hp
      · intro hConn; exact ReadyState.noConfusion hConn
    · refine ⟨hb1, Nat.zero_le 5, ?_, ?_, ?_⟩
      · rw [hpnil]; exact Nat.zero_le 1
      · intro hp; rw [hpnil] at hp; simp at hp  -- hmm: pending here is unfiltered
      · intro hConn; exact ReadyState.noConfusion hConn
  · refine ⟨hb1, Nat.zero_le 5, ?_, ?_, ?_⟩
    · rw [hpnil]; exact Nat.zero_le 1
    · intro hp; rw [hpnil] at hp; simp at hp
    · intro hConn; exact ReadyState.noConfusion hConn

theorem boundedInv_handshakeSuccess {w : World} {cid : Nat} (h : BoundedInv w) :
    BoundedInv (handshakeSuccess w cid) := by
  obtain ⟨h1, h2, h3, h4, h5⟩ := h
  unfold handshakeSuccess
  split
  · exact ⟨h1, h2, h3, h4, h5⟩
  next a heq =>
    have ha : a ∈ w.pending := List.mem_of_find?_eq_some heq
    have hsing : w.pending = [a] := length_le_one_eq_singleton h3 ha
    have hcid : a.clientId = cid := by
      have := List.find?_some heq
      simpa using this
    have hfil : w.pending.filter (fun x => x.clientId ≠ cid) = [] := by
      rw [hsing]
      simp [hcid]
    refine ⟨h1, Nat.zero_le 5, ?_, ?_, ?_⟩
    · rw [hfil]; exact Nat.zero_le 1
    · intro hp; rw [hfil] at hp; simp at hp
    · intro hConn; exact ReadyState.noConfusion hConn

theorem boundedInv_handshakeFailure {w : World} {cid : Nat} (h : BoundedInv w) :
    BoundedInv (handshakeFailure w cid) := by
  obtain ⟨h1, h2, h3, h4, h5⟩ := h
  unfold handshakeFailure
  split
  · exact ⟨h1, h2, h3, h4, h5⟩
  next a heq =>
    have ha : a ∈ w.pending := List.mem_of_find?_eq_some heq
    have hsing : w.pending = [a] := length_le_one_eq_singleton h3 ha
    have hcid : a.clientId = cid := by
      have := List.find?_some heq
      simpa using this
    have hfil : w.pending.filter (fun x => x.clientId ≠ cid) = [] := by
      rw [hsing]
      simp [hcid]
    have hlt : w.store.reconnectAttempts < 5 := by
      apply h5
      apply h4
      rw [hsing]
      simp
    dsimp only
    split_ifs
    · refine ⟨h1, Nat.succ_le_of_lt hlt, ?_, ?_, ?_⟩
      · rw [hfil]; exact Nat.zero_le 1
      · intro hp; rw [hfil] at hp; simp at hp
      · intro hConn; exact ReadyState.noConfusion hConn
    · refine ⟨h1, Nat.succ_le_of_lt hlt, ?_, ?_, ?_⟩
      · rw [hfil]; exact Nat.zero_le 1
      · intro hp; rw [hfil] at hp; simp at hp
      · intro hConn; exact ReadyState.noConfusion hConn

theorem boundedInv_timerFire {w : World} {tid : Nat} {token : Option String}
    (h : BoundedInv w) : BoundedInv (timerFire w tid token) := by
  unfold timerFire; split
  · exact h
  · exact boundedInv_connect h

theorem boundedInv_step {w : World} {e : Event} (h : BoundedInv w)
    (hgood : e = Event.disconnect → w.store.readyState ≠ ReadyState.CONNECTING) :
    BoundedInv (step w e) := by
  cases e with
  | connect url token => exact boundedInv_connect h
  | disconnect => exact boundedInv_disconnect h (hgood rfl)
  | handshakeSuccess cid => exact boundedInv_handshakeSuccess h
  | handshakeFailure cid => exact boundedInv_handshakeFailure h
  | timerFire tid token => exact boundedInv_timerFire h

theorem boundedInv_run {w : World} {es : List Event} (h : BoundedInv w)
    (hgood : goodFrom w es = true) : BoundedInv (run w es) := by
  induction es generalizing w with
  | nil => exact h
  | cons e es ih =>
    rw [goodFrom, Bool.and_eq_true] at hgood
    refine ih (boundedInv_step h ?_) hgood.2
    intro he hs
    have h1 : ¬e = Event.disconnect ∨ ¬w.store.readyState = ReadyState.CONNECTING := by
      simpa using hgood.1
    rcases h1 with h1 | h1
    · exact h1 he
    · exact h1 hs

theorem boundedInv_init : BoundedInv initWorld := by
  refine ⟨rfl, Nat.zero_le 5, Nat.zero_le 1, ?_, ?_⟩
  · intro hp; exact absurd rfl hp
  · intro hConn; exact ReadyState.noConfusion hConn

/-! ### Shape lemmas for `connect`, `disconnect` and the error callback -/

theorem sh_reconnectTimeoutId (w : World) (url : String) (token : Option String) :
    (startHandshake w url token).store.reconnectTimeoutId = w.store.reconnectTimeoutId := rfl

theorem sh_nextClientId (w : World) (url : String) (token : Option String) :
    (startHandshake w url token).nextClientId = w.nextClientId + 1 := rfl

theorem disconnect_reconnectAttempts (w : World) :
    (disconnect w).store.reconnectAttempts = 0 := by
  simp only [disconnect]
  split
  · split_ifs <;> rfl
  · rfl

theorem disconnect_readyState (w : World) :
    (disconnect w).store.readyState = ReadyState.CLOSED := by
  simp only [disconnect]
  split
  · split_ifs <;> rfl
  · rfl

theorem disconnect_reconnectTimeoutId (w : World) :
    (disconnect w).store.reconnectTimeoutId = none := by
  have hnone := clear_reconnectTimeoutId w
  simp only [disconnect]
  split
  · split_ifs
    · exact hnone
    · exact hnone
  · exact hnone

theorem disconnect_timers (w : World) :
    (disconnect w).timers = (clearStoredTimer w).timers := by
  simp only [disconnect]
  split
  · split_ifs <;> rfl
  · rfl

theorem disconnect_nextTimerId (w : World) :
    (disconnect w).nextTimerId = w.nextTimerId := by
  simp only [disconnect]
  split
  · split_ifs
    · exact clear_nextTimerId w
    · exact clear_nextTimerId w
  · exact clear_nextTimerId w

theorem connect_timers (w : World) (url : String) (token : Option String) :
    (connect w url token).timers = (clearStoredTimer w).timers := by
  simp only [connect]
  split_ifs
  · rfl
  · rfl
  · rfl
  · rw [sh_timers, cleanup_timers]

theorem connect_reconnectTimeoutId (w : World) (url : String) (token : Option String) :
    (connect w url token).store.reconnectTimeoutId = none := by
  have hnone := clear_reconnectTimeoutId w
  simp only [connect]
  split_ifs
  · exact hnone
  · exact hnone
  · exact hnone
  · rw [sh_reconnectTimeoutId, cleanup_reconnectTimeoutId]
    exact hnone

theorem step_quiescent {w : World} {e : Event} (hp : w.pending = [])
    (ht : w.timers = []) (hc : isCallerEvent e = false) : step w e = w := by
  cases e with
  | connect url token => simp [isCallerEvent] at hc
  | disconnect => simp [isCallerEvent] at hc
  | handshakeSuccess cid => simp [step, handshakeSuccess, hp]
  | handshakeFailure cid => simp [step, handshakeFailure, hp]
  | timerFire tid token => simp [step, timerFire, ht]

theorem run_quiescent {w : World} {es : List Event} (hp : w.pending = [])
    (ht : w.timers = []) (hc : ∀ e ∈ es, isCallerEvent e = false) : run w es = w := by
  induction es with
  | nil => rfl
  | cons e es ih =>
    rw [run_cons, step_quiescent hp ht (hc e (List.mem_cons_self e es))]
    exact ih fun e' he' => hc e' (List.mem_cons_of_mem e he')

theorem handshakeFailure_attempts {w : World} {cid : Nat} {hs : Handshake}
    (heq : w.pending.find? (fun x => x.clientId = cid) = some hs) :
    (handshakeFailure w cid).store.reconnectAttempts = w.store.reconnectAttempts + 1 := by
  unfold handshakeFailure
  rw [heq]
  dsimp only
  split_ifs <;> rfl

theorem handshakeFailure_schedule {w : World} {cid : Nat} {hs : Handshake}
    (heq : w.pending.find? (fun x => x.clientId = cid) = some hs)
    (hlt : w.store.reconnectAttempts + 1 < w.store.maxReconnectAttempts) :
    (handshakeFailure w cid).timers =
      { id := w.nextTimerId, url := hs.url,
        delay := reconnectDelay w.store.reconnectAttempts } :: w.timers ∧
    (handshakeFailure w cid).store.reconnectTimeoutId = some w.nextTimerId := by
  unfold handshakeFailure
  rw [heq]
  dsimp only
  rw [if_pos hlt]
  exact ⟨rfl, rfl⟩

/-! ### The claims -/

/-- Claim C1: with base delay 1000 ms and cap 30000 ms, the delay the error
callback computes for a failure whose pre-failure attempt count is `n` is
`min (1000 * 2^(n+1)) 30000`, which is 2000, 4000, 8000, 16000, 30000 ms
for failures 1 through 5; each failure of a pending handshake increments
`reconnectAttempts` by exactly 1, and every reconnect timer it schedules
carries exactly that delay. -/
theorem C1_backoff_delays :
    (∀ n : Nat, reconnectDelay n = min (1000 * 2 ^ (n + 1)) 30000) ∧
    (reconnectDelay 0 = 2000 ∧ reconnectDelay 1 = 4000 ∧ reconnectDelay 2 = 8000 ∧
     reconnectDelay 3 = 16000 ∧ reconnectDelay 4 = 30000) ∧
    (∀ (w : World) (cid : Nat) (hs : Handshake),
      w.pending.find? (fun x => x.clientId = cid) = some hs →
      (handshakeFailure w cid).store.reconnectAttempts = w.store.reconnectAttempts + 1 ∧
      (w.store.reconnectAttempts + 1 < w.store.maxReconnectAttempts →
        (handshakeFailure w cid).timers =
          { id := w.nextTimerId, url := hs.url,
            delay := reconnectDelay w.store.reconnectAttempts } :: w.timers)) := by
  refine ⟨fun n => rfl, ⟨by decide, by decide, by decide, by decide, by decide⟩, ?_⟩
  intro w cid hs heq
  exact ⟨handshakeFailure_attempts heq,
         fun hlt => (handshakeFailure_schedule heq hlt).1⟩

/-- Witness for C1 at the state right after the first `connect`. -/
theorem C1_backoff_delays_witness :
    (run initWorld [Event.connect "wss://host/ws" none]).pending.find?
        (fun x => x.clientId = 0) =
      some { clientId := 0, url := "wss://host/ws", headers := [] } ∧
    (handshakeFailure (run initWorld [Event.connect "wss://host/ws" none]) 0).store.reconnectAttempts
      = (run initWorld [Event.connect "wss://host/ws" none]).store.reconnectAttempts + 1 := by
  refine ⟨by decide, ?_⟩
  exact (C1_backoff_delays.2.2 (run initWorld [Event.connect "wss://host/ws" none]) 0
    { clientId := 0, url := "wss://host/ws", headers := [] } (by decide)).1

/-- Claim C2: after 5 consecutive handshake failures (Scenario B) the state is
`CLOSED` with `reconnectAttempts = 5`, no stored or live timer and no
pending handshake; from that world no event other than a caller
intervention changes anything; and on any reachable world with
`reconnectAttempts >= maxReconnectAttempts`, `connect` forces `CLOSED`
and opens no transport (no new client, pending handshakes and stored
client untouched). -/
theorem C2_retry_ceiling :
    ((run initWorld failTrace5).store.readyState = ReadyState.CLOSED ∧
     (run initWorld failTrace5).store.reconnectAttempts = 5 ∧
     (run initWorld failTrace5).store.reconnectTimeoutId = none ∧
     (run initWorld failTrace5).timers = [] ∧
     (run initWorld failTrace5).pending = []) ∧
    (∀ es : List Event, (∀ e ∈ es, isCallerEvent e = false) →
      run (run initWorld failTrace5) es = run initWorld failTrace5) ∧
    (∀ (w : World) (url : String) (token : Option String), Reachable w →
      w.store.maxReconnectAttempts ≤ w.store.reconnectAttempts →
      (connect w url token).store.readyState = ReadyState.CLOSED ∧
      (connect w url token).pending = w.pending ∧
      (connect w url token).nextClientId = w.nextClientId ∧
      (connect w url token).store.stompClient = w.store.stompClient) := by
  refine ⟨⟨by decide, by decide, by decide, by decide, by decide⟩, ?_, ?_⟩
  · intro es hes
    exact run_quiescent (by decide) (by decide) hes
  · intro w url token hr hmax
    obtain ⟨i1, i2, i3, i4, i5, i6⟩ := reachable_storeInv hr
    have hno : w.store.readyState ≠ ReadyState.OPEN := by
      intro hO
      rw [i2, i3 hO] at hmax
      exact absurd hmax (by decide)
    have hnc : w.store.readyState ≠ ReadyState.CONNECTING := by
      intro hC
      have := i4 hC
      omega
    simp only [connect]
    split_ifs with h1 h2 h3
    · rw [clear_readyState] at h1; exact absurd h1 hno
    · rw [clear_readyState] at h2; exact absurd h2 hnc
    · exact ⟨rfl, clear_pending w, clear_nextClientId w, clear_stompClient w⟩
    · rw [clear_maxReconnectAttempts, clear_reconnectAttempts] at h3
      exact absurd hmax h3

/-- Witness for C2: a stray failure callback after exhaustion changes
nothing, and `connect` on the exhausted world is forced to `CLOSED`. -/
theorem C2_retry_ceiling_witness :
    run (run initWorld failTrace5) [Event.handshakeFailure 9] = run initWorld failTrace5 ∧
    (connect (run initWorld failTrace5) "wss://host/ws" none).store.readyState =
      ReadyState.CLOSED := by
  constructor
  · exact C2_retry_ceiling.2.1 [Event.handshakeFailure 9] (by decide)
  · exact (C2_retry_ceiling.2.2 (run initWorld failTrace5) "wss://host/ws" none
      (reachable_run Reachable.init failTrace5) (by decide)).1

/-- Claim C3: in every reachable world, `reconnectAttempts` is 0 whenever the
state is `OPEN` (so in particular immediately after every transition into
`OPEN`), and `disconnect()` leaves `reconnectAttempts = 0` from any
state whatsoever. -/
theorem C3_reset_on_open_and_disconnect :
    (∀ w : World, Reachable w → w.store.readyState = ReadyState.OPEN →
       w.store.reconnectAttempts = 0) ∧
    (∀ w : World, (disconnect w).store.reconnectAttempts = 0) :=
  ⟨fun _ hr hO => (reachable_storeInv hr).2.2.1 hO,
   fun w => disconnect_reconnectAttempts w⟩

/-- Witness for C3: the world after a successful handshake, and a
`disconnect` from a world with one recorded failure. -/
theorem C3_reset_witness :
    (run initWorld openTrace).store.reconnectAttempts = 0 ∧
    (disconnect (run initWorld oneFailureTrace)).store.reconnectAttempts = 0 :=
  ⟨C3_reset_on_open_and_disconnect.1 (run initWorld openTrace)
      (reachable_run Reachable.init openTrace) (by decide),
   C3_reset_on_open_and_disconnect.2 (run initWorld oneFailureTrace)⟩

/-- Claim C4: `connect` called while the state is `OPEN` or `CONNECTING`
touches neither the transport nor the retry counter: the stored client,
the pending handshakes, the client-id counter and `reconnectAttempts`
are all unchanged (only the stored reconnect-timer handle is cleared,
which is outside the claim). -/
theorem C4_connect_idempotent_guard :
    ∀ (w : World) (url : String) (token : Option String),
      w.store.readyState = ReadyState.OPEN ∨ w.store.readyState = ReadyState.CONNECTING →
      (connect w url token).store.stompClient = w.store.stompClient ∧
      (connect w url token).pending = w.pending ∧
      (connect w url token).nextClientId = w.nextClientId ∧
      (connect w url token).store.reconnectAttempts = w.store.reconnectAttempts := by
  intro w url token hstate
  simp only [connect]
  split_ifs with h1 h2
  · exact ⟨clear_stompClient w, clear_pending w, clear_nextClientId w, clear_reconnectAttempts w⟩
  · exact ⟨clear_stompClient w, clear_pending w, clear_nextClientId w, clear_reconnectAttempts w⟩
  all_goals
    rw [clear_readyState] at h1 h2
    rcases hstate with h | h
    · exact absurd h h1
    · exact absurd h h2

/-- Witness for C4 in a `CONNECTING` world and in an `OPEN` world. -/
theorem C4_connect_idempotent_witness :
    (connect (run initWorld [Event.connect "wss://host/ws" none]) "wss://host/ws" none).pending =
      (run initWorld [Event.connect "wss://host/ws" none]).pending ∧
    (connect (run initWorld openTrace) "wss://host/ws" none).store.reconnectAttempts =
      (run initWorld openTrace).store.reconnectAttempts := by
  constructor
  · exact (C4_connect_idempotent_guard (run initWorld [Event.connect "wss://host/ws" none])
      "wss://host/ws" none (Or.inr (by decide))).2.1
  · exact (C4_connect_idempotent_guard (run initWorld openTrace)
      "wss://host/ws" none (Or.inl (by decide))).2.2.2

/-- Claim C5: on any reachable world whose `reconnectTimeoutId` holds a timer,
`disconnect()` clears the handle and that timer is no longer live after
`disconnect` nor after any continuation whatsoever, so it can never fire;
and `connect` likewise cancels (removes from the live set) and clears the
stored handle unconditionally. -/
theorem C5_timer_cancellation :
    (∀ (w : World) (tid : Nat), Reachable w →
       w.store.reconnectTimeoutId = some tid →
       (disconnect w).store.reconnectTimeoutId = none ∧
       ∀ es : List Event, ∀ t ∈ (run (disconnect w) es).timers, t.id ≠ tid) ∧
    (∀ (w : World) (url : String) (token : Option String) (tid : Nat),
       w.store.reconnectTimeoutId = some tid →
       (connect w url token).store.reconnectTimeoutId = none ∧
       ∀ t ∈ (connect w url token).timers, t.id ≠ tid) ∧
    (∀ (w : World) (tid : Nat) (token : Option String),
       (∀ t ∈ w.timers, t.id ≠ tid) → timerFire w tid token = w) := by
  refine ⟨?_, ?_, ?_⟩
  · intro w tid hr hstored
    refine ⟨disconnect_reconnectTimeoutId w, ?_⟩
    have hlt : tid < w.nextTimerId := (reachable_storeInv hr).2.2.2.2.2 tid hstored
    have hdead : TimerDead (disconnect w) tid := by
      refine ⟨?_, ?_⟩
      · rw [disconnect_nextTimerId]; exact hlt
      · intro t ht
        rw [disconnect_timers] at ht
        exact clear_timers_ne hstored t ht
    intro es
    exact (timerDead_run hdead es).2
  · intro w url token tid hstored
    refine ⟨connect_reconnectTimeoutId w url token, ?_⟩
    intro t ht
    rw [connect_timers] at ht
    exact clear_timers_ne hstored t ht
  · intro w tid token hne
    unfold timerFire
    split
    · rfl
    next t heq =>
      have hmem : t ∈ w.timers := List.mem_of_find?_eq_some heq
      have hid : t.id = tid := by
        have := List.find?_some heq
        simpa using this
      exact absurd hid (hne t hmem)

/-- Witness for C5 at the world with one failed attempt and a pending
reconnect timer (timer id 0). -/
theorem C5_timer_cancellation_witness :
    (disconnect (run initWorld oneFailureTrace)).store.reconnectTimeoutId = none ∧
    (connect (run initWorld oneFailureTrace) "wss://host/ws" none).store.reconnectTimeoutId =
      none ∧
    timerFire (disconnect (run initWorld oneFailureTrace)) 0 none =
      disconnect (run initWorld oneFailureTrace) := by
  refine ⟨?_, ?_, ?_⟩
  · exact (C5_timer_cancellation.1 (run initWorld oneFailureTrace) 0
      (reachable_run Reachable.init oneFailureTrace) (by decide)).1
  · exact (C5_timer_cancellation.2.1 (run initWorld oneFailureTrace) "wss://host/ws" none 0
      (by decide)).1
  · exact C5_timer_cancellation.2.2 (disconnect (run initWorld oneFailureTrace)) 0 none
      (by decide)

/-- Claim C6: whenever the state is not `OPEN` (e.g. `CONNECTING` or `CLOSED`),
`sendMessage` performs no transport call (result `none`; the function is
total, so it cannot throw) and `subscribe` performs no transport call and
returns `undefined` (`none`). -/
theorem C6_send_subscribe_not_open :
    ∀ (w : World) (destination body : String) (headers : List (String × String)),
      w.store.readyState ≠ ReadyState.OPEN →
      sendMessage w destination body headers = none ∧
      subscribe w destination headers = none := by
  intro w destination body headers hno
  constructor
  · unfold sendMessage
    split
    · exact if_neg fun hcond => hno hcond.2
    · rfl
  · unfold subscribe
    split
    · exact if_neg fun hcond => hno hcond.2
    · rfl

/-- Witness for C6 in the `CLOSED` world after one handshake failure. -/
theorem C6_send_subscribe_witness :
    sendMessage (run initWorld oneFailureTrace) "/topic/crawling-progress" "ping" [] = none ∧
    subscribe (run initWorld oneFailureTrace) "/topic/crawling-progress" [] = none :=
  C6_send_subscribe_not_open (run initWorld oneFailureTrace)
    "/topic/crawling-progress" "ping" [] (by decide)

/-- Counterexample for claim C7: the header guard in the code is a
JavaScript truthiness test, not a null test.  At the non-null credential
`""` (the empty string, which the provider type `string | null` permits)
the code takes the empty branch of `accessToken ? ... : \x7b\x7d` and
attaches NO `Authorization` header, refuting the claim that a header is
attached whenever the credential is non-null: connecting from the
initial world with token `some ""` yields a pending handshake with empty
headers. -/
theorem C7_empty_credential_counterexample :
    authHeaders (some "") = [] ∧
    (connect initWorld "wss://host/ws" (some "")).pending.head? =
      some { clientId := 0, url := "wss://host/ws", headers := [] } := by
  constructor
  · rfl
  · decide

/-- Amended claim C7: the handshake headers are a function of the
credential read from the provider at the very invocation of `connect`
(the store caches no token, so nothing from an earlier attempt can leak
in): whenever `connect` proceeds to a handshake, for EVERY prior state
the new pending handshake carries exactly `authHeaders token`, which is
`Authorization: Bearer <token>` when the credential is non-null AND
non-empty (truthy), and no header at all when it is null or the empty
string. -/
theorem C7_fresh_credential_header :
    (authHeaders none = [] ∧
     authHeaders (some "") = [] ∧
     ∀ token : String, token ≠ "" →
       authHeaders (some token) = [("Authorization", "Bearer " ++ token)]) ∧
    (∀ (w : World) (url : String) (token : Option String),
      w.store.readyState ≠ ReadyState.OPEN →
      w.store.readyState ≠ ReadyState.CONNECTING →
      w.store.reconnectAttempts < w.store.maxReconnectAttempts →
      (connect w url token).pending.head? =
        some { clientId := w.nextClientId, url := url, headers := authHeaders token }) := by
  refine ⟨⟨rfl, rfl, ?_⟩, ?_⟩
  · intro token htok
    show (if token = "" then [] else [("Authorization", "Bearer " ++ token)]) =
      [("Authorization", "Bearer " ++ token)]
    rw [if_neg htok]
  · intro w url token hno hnc hlt
    simp only [connect]
    split_ifs with h1 h2 h3
    · rw [clear_readyState] at h1; exact absurd h1 hno
    · rw [clear_readyState] at h2; exact absurd h2 hnc
    · rw [clear_maxReconnectAttempts, clear_reconnectAttempts] at h3
      exact absurd hlt (Nat.not_lt.mpr h3)
    · rw [sh_pending]
      have hid : (cleanupClient (clearStoredTimer w)).nextClientId = w.nextClientId := by
        rw [cleanup_nextClientId, clear_nextClientId]
      rw [hid]
      rfl

/-- Witness for C7: connecting from the initial world with a fresh
non-empty token attaches exactly the bearer header for that token. -/
theorem C7_fresh_credential_header_witness :
    authHeaders (some "tokenA") = [("Authorization", "Bearer tokenA")] ∧
    (connect initWorld "wss://host/ws" (some "tokenA")).pending.head? =
      some { clientId := 0, url := "wss://host/ws",
             headers := [("Authorization", "Bearer tokenA")] } := by
  constructor
  · exact C7_fresh_credential_header.1.2.2 "tokenA" (by decide)
  · have h := C7_fresh_credential_header.2 initWorld "wss://host/ws" (some "tokenA")
      (by decide) (by decide) (by decide)
    exact h

/-- Counterexample for claim C8: the status string the code maps
`UNINSTANTIATED` to is the Korean string of `getStatusString`, not the
English string "not connected" named by the claim. -/
theorem C8_status_string_counterexample :
    getStatusString ReadyState.UNINSTANTIATED ≠ "not connected" := by
  decide

/-- Amended claim C8: in every reachable world the exposed status string equals
`getStatusString` of the current state, and `getStatusString` is a fixed
total injective (1:1) mapping — with the actual strings of the code
(`UNINSTANTIATED` to "연결 안 됨", `CONNECTING` to "연결 중...", `OPEN` to
"연결됨", `CLOSING` to "연결 종료 중...", `CLOSED` to "연결 끊김") instead of
the English glosses named by the claim. -/
theorem C8_status_derived_from_state :
    (∀ w : World, Reachable w →
       w.store.connectionStatus = getStatusString w.store.readyState) ∧
    Function.Injective getStatusString := by
  constructor
  · intro w hr
    exact (reachable_storeInv hr).1
  · intro s1 s2 h
    cases s1 <;> cases s2 <;> first | rfl | exact absurd h (by decide)

/-- Witness for C8 on the exhausted world of Scenario B. -/
theorem C8_status_derived_witness :
    (run initWorld failTrace5).store.connectionStatus =
      getStatusString (run initWorld failTrace5).store.readyState ∧
    ReadyState.CLOSED = ReadyState.CLOSED :=
  ⟨C8_status_derived_from_state.1 (run initWorld failTrace5)
      (reachable_run Reachable.init failTrace5),
   C8_status_derived_from_state.2 (rfl)⟩

/-- Counterexample for claim C9: `reconnectAttempts` CAN exceed
`maxReconnectAttempts`.  Calling `disconnect()` while a handshake is in
flight resets the counter to 0 but leaves the error callback of the
abandoned handshake armed (the source merely drops the client reference); repeating
this five times leaves six armed error callbacks, and when they all fire
the counter reaches 6 > 5. -/
theorem C9_attempt_bound_counterexample :
    (run initWorld staleFailureTrace).store.maxReconnectAttempts <
      (run initWorld staleFailureTrace).store.reconnectAttempts := by
  decide

/-- Amended claim C9: on every trace that never invokes `disconnect()` while
the state is `CONNECTING` (so at most one handshake is ever in flight),
`reconnectAttempts <= maxReconnectAttempts` is a global invariant. -/
theorem C9_attempts_bounded_on_disciplined_traces :
    ∀ es : List Event, goodFrom initWorld es = true →
      (run initWorld es).store.reconnectAttempts ≤
        (run initWorld es).store.maxReconnectAttempts := by
  intro es hgood
  have hb := boundedInv_run boundedInv_init hgood
  rw [hb.1]
  exact hb.2.1

/-- Witness for C9 on the Scenario B trace (which never disconnects). -/
theorem C9_attempts_bounded_witness :
    (run initWorld failTrace5).store.reconnectAttempts ≤
      (run initWorld failTrace5).store.maxReconnectAttempts :=
  C9_attempts_bounded_on_disciplined_traces failTrace5 (by decide)

/-- Claim C10: `sendMessage` and `subscribe` are guarded by the transport
itself as well as by the abstract state: whatever the state (even
`OPEN`), a null stored client or a client whose `connected` flag is false
means no transport call — `sendMessage` returns `none` without throwing
and `subscribe` returns `undefined` (`none`). -/
theorem C10_transport_flag_guard :
    ∀ (w : World) (destination body : String) (headers : List (String × String)),
      (w.store.stompClient = none →
        sendMessage w destination body headers = none ∧
        subscribe w destination headers = none) ∧
      (∀ c : StompClient, w.store.stompClient = some c → c.connected = false →
        sendMessage w destination body headers = none ∧
        subscribe w destination headers = none) := by
  intro w destination body headers
  constructor
  · intro hnone
    unfold sendMessage subscribe
    rw [hnone]
    exact ⟨rfl, rfl⟩
  · intro c hsome hconn
    unfold sendMessage subscribe
    rw [hsome]
    constructor
    · refine if_neg ?_
      intro hcond
      rw [hconn] at hcond
      exact absurd hcond.1 (by decide)
    · refine if_neg ?_
      intro hcond
      rw [hconn] at hcond
      exact absurd hcond.1 (by decide)

/-- Witness for C10: an `OPEN` store with no client, and an `OPEN` store
whose client has `connected = false`. -/
theorem C10_transport_flag_guard_witness :
    sendMessage openNullClientWorld "/app/message" "ping" [] = none ∧
    subscribe openStaleClientWorld "/topic/crawling-progress" [] = none := by
  constructor
  · exact ((C10_transport_flag_guard openNullClientWorld "/app/message" "ping" []).1 rfl).1
  · exact ((C10_transport_flag_guard openStaleClientWorld "/topic/crawling-progress" "ping"
      []).2 { id := 0, connected := false } rfl rfl).2

end WSStore
